import Mathlib

/-!
Verification of the peer-to-peer mentorship platform backend
(src/backend/app.py, src/backend/models.py, src/backend/config.py).

The Flask route handlers are shallowly embedded as pure Lean functions:
the relational database is a list of rows per table, request-body JSON
values are an inductive `JsonVal`, timestamps are abstract integers, and
each handler returns `Except HttpError α` mirroring the (status, body)
pairs produced by the Python code.
-/

namespace Mentorship

/-- A JSON value as it arrives in a request body.  Python represents
JSON numbers as `int` or `float`; floats are modelled as rationals. -/
inductive JsonVal where
  | null : JsonVal
  | b : Bool → JsonVal
  | i : Int → JsonVal
  | f : ℚ → JsonVal
  | s : String → JsonVal
deriving DecidableEq, Repr

/-- Python truthiness of a JSON value (`None`, `False`, `0`, `0.0`, `""`
are falsy; everything else is truthy). -/
def JsonVal.truthy : JsonVal → Bool
  | .null => false
  | .b x => x
  | .i n => n ≠ 0
  | .f q => q ≠ 0
  | .s str => str ≠ ""

/-- Python `==` between a JSON value and an `int` (used by
`mentor_id == user.id` in `sessions_route`): numbers compare by value
(`True == 1`, `1.0 == 1`), strings and `None` never equal an int. -/
def pyEqInt : JsonVal → Int → Bool
  | .null, _ => false
  | .b x, n => (if x then (1 : Int) else 0) = n
  | .i m, n => m = n
  | .f q, n => q = (n : ℚ)
  | .s _, _ => false

/-- Truncation of a rational toward zero, as Python `int(float)`. -/
def ratTruncToZero (q : ℚ) : Int :=
  if 0 ≤ q then ⌊q⌋ else ⌈q⌉

/-- Python `str.strip()`: drop leading and trailing whitespace. -/
def pyStrip (s : String) : String :=
  String.mk (((s.data.dropWhile Char.isWhitespace).reverse.dropWhile
    Char.isWhitespace).reverse)

/-- Python `str.lower()` (ASCII case mapping on these inputs). -/
def pyLower (s : String) : String :=
  String.mk (s.data.map Char.toLower)

/-- Whether `pre` is a prefix of `s` (Python `str.startswith`). -/
def pyStartsWith (s pre : String) : Bool :=
  pre.data.isPrefixOf s.data

/-- Numeric value of a list of decimal digits. -/
def digitsVal (l : List Char) : Nat :=
  l.foldl (fun a c => a * 10 + (c.toNat - 48)) 0

/-- Python `int(str)`: after stripping whitespace, an optional sign
followed by one or more decimal digits; anything else raises
`ValueError` (`none`). -/
def pyParseIntCore (str : String) : Option Int :=
  let t := pyStrip str
  let core := if pyStartsWith t "-" ∨ pyStartsWith t "+" then String.mk (t.data.drop 1) else t
  if core.data ≠ [] ∧ core.data.all Char.isDigit then
    some (if pyStartsWith t "-" then -(digitsVal core.data : Int) else (digitsVal core.data : Int))
  else
    none

/-- Python `int(x)` on a JSON value: `None` raises `TypeError`, booleans
convert to 0/1, ints pass through, floats truncate toward zero, strings
parse as decimal integers or raise `ValueError`.  `none` models the
raised exception. -/
def pyInt : JsonVal → Option Int
  | .null => none
  | .b x => some (if x then 1 else 0)
  | .i n => some n
  | .f q => some (ratTruncToZero q)
  | .s str => pyParseIntCore str

/-- How the MySQL layer compares an `Integer` primary-key/foreign-key
column against a bound Python value (`User.query.get(mentor_id)`,
`Session.mentor_id == mentor_id`): ints match directly, booleans are
sent as 0/1, digit strings are coerced to the number they denote,
integral floats match their integer value, `NULL` matches nothing. -/
def dbCoerceId : JsonVal → Option Int
  | .null => none
  | .b x => some (if x then 1 else 0)
  | .i n => some n
  | .f q => if q.den = 1 then some q.num else none
  | .s str => pyParseIntCore str

/-- An error response: HTTP status code plus the `error` field of the
JSON body. -/
structure HttpError where
  status : Nat
  error : String
deriving DecidableEq, Repr

/-- `users` table row (models.py `User`).  `created_at` is an abstract
timestamp. -/
structure User where
  id : Int
  name : String
  email : String
  password_hash : String
  bio : Option String
  interests : Option String
  skills : Option String
  experience : Option String
  role : String
  created_at : Int
deriving DecidableEq, Repr

/-- models.py `SessionStatus` constants. -/
def SessionStatus.PENDING : String := "pending"

def SessionStatus.ACCEPTED : String := "accepted"

def SessionStatus.REJECTED : String := "rejected"

def SessionStatus.COMPLETED : String := "completed"

/-- `sessions` table row (models.py `Session`). -/
structure Session where
  id : Int
  requester_id : Int
  mentor_id : Int
  topic : String
  description : Option String
  scheduled_time : Option Int
  meeting_link : Option String
  status : String
  created_at : Int
  updated_at : Int
deriving DecidableEq, Repr

/-- `feedback` table row (models.py `Feedback`). -/
structure Feedback where
  id : Int
  session_id : Int
  author_id : Int
  target_user_id : Int
  rating : Int
  comment : Option String
  created_at : Int
deriving DecidableEq, Repr

/-- `datetime.isoformat` serialisation of an abstract timestamp,
modelled as its decimal rendering (the claims never inspect its
internal shape, only presence and equality). -/
def isoformat (t : Int) : String := toString t

/-- models.py `User.to_dict_basic`: the serialised user dictionary,
as an ordered association list.  Note there is no `experience_years`
key: the model column is `experience`. -/
def User.to_dict_basic (u : User) : List (String × JsonVal) :=
  [ ("id", .i u.id),
    ("name", .s u.name),
    ("email", .s u.email),
    ("bio", match u.bio with | none => .null | some x => .s x),
    ("interests", match u.interests with | none => .null | some x => .s x),
    ("skills", match u.skills with | none => .null | some x => .s x),
    ("experience", match u.experience with | none => .null | some x => .s x),
    ("role", .s u.role),
    ("created_at", .s (isoformat u.created_at)) ]

/-- Python `dict.pop(key, None)`: remove a key from a dictionary. -/
def popKey (key : String) (d : List (String × JsonVal)) : List (String × JsonVal) :=
  d.filter (fun kv => kv.1 ≠ key)

/-- Dictionary lookup. -/
def lookupKey (key : String) (d : List (String × JsonVal)) : Option JsonVal :=
  (d.find? (fun kv => kv.1 = key)).map (·.2)

/-- app.py `validate_password`: length, then uppercase, then lowercase,
then digit; `minLength` is `config.PASSWORD_MIN_LENGTH` (default 8).
The regexes `[A-Z]`, `[a-z]`, `\d` are ASCII classes on these inputs. -/
def validate_password (minLength : Nat) (password : String) : Bool × Option String :=
  if password = "" then
    (false, some "Password is required")
  else if password.length < minLength then
    (false, some ("Password must be at least " ++ toString minLength ++ " characters long"))
  else if ¬ password.data.any Char.isUpper then
    (false, some "Password must contain at least one uppercase letter")
  else if ¬ password.data.any Char.isLower then
    (false, some "Password must contain at least one lowercase letter")
  else if ¬ password.data.any Char.isDigit then
    (false, some "Password must contain at least one number")
  else
    (true, none)

/-- app.py `login` (the logic after JSON extraction).  `hashCheck`
abstracts werkzeug's `check_password_hash`; `email`/`password` are the
raw body strings (defaulting to `""` when absent). -/
def login (dbUsers : List User) (hashCheck : String → String → Bool)
    (email password : String) : Except HttpError User :=
  let email := pyLower (pyStrip email)
  if email = "" ∨ password = "" then
    .error ⟨400, "Email and password are required"⟩
  else
    match dbUsers.find? (fun u => u.email = email) with
    | none => .error ⟨401, "Invalid email or password"⟩
    | some u =>
      if ¬ hashCheck u.password_hash password then
        .error ⟨401, "Invalid email or password"⟩
      else
        .ok u

/-- The in-memory ORM `User` instance seen by the profile handler: the
mapped row plus the `experience_years` attribute that app.py assigns.
`experience_years` is NOT a column of models.py's `User` (the model
declares `experience` instead), so it lives only on the Python object:
committing persists `row` alone, and `to_dict_basic` never reads it. -/
structure UserObj where
  row : User
  experience_years : Option Int
deriving DecidableEq, Repr

/-- PUT /api/profile request body: `some v` when the key is present.
String-valued fields are modelled as strings (the handler calls
`.strip()` on them); `experience_years` keeps its raw JSON value. -/
structure ProfileBody where
  name : Option String
  bio : Option String
  interests : Option String
  skills : Option String
  experience_years : Option JsonVal
  role : Option String
deriving Repr

/-- app.py `profile` (PUT branch): partial update of the caller's user.
Returns the updated in-memory object together with the response
dictionary (`user.to_dict_basic()`); the persisted row is `.row` of the
result. -/
def profile_put (u : UserObj) (data : ProfileBody) : UserObj × List (String × JsonVal) :=
  let u := match data.name with
    | some n => if pyStrip n ≠ "" then { u with row := { u.row with name := pyStrip n } } else u
    | none => u
  let u := match data.bio with
    | some b => { u with row := { u.row with bio := some (pyStrip b) } }
    | none => u
  let u := match data.interests with
    | some v => { u with row := { u.row with interests := some (pyStrip v) } }
    | none => u
  let u := match data.skills with
    | some v => { u with row := { u.row with skills := some (pyStrip v) } }
    | none => u
  let u := match data.experience_years with
    | some val =>
      if u.row.role = "mentor" ∨ u.row.role = "both" then
        if val = .null ∨ val = .s "" then
          { u with experience_years := none }
        else
          match pyInt val with
          | some n => { u with experience_years := if 0 ≤ n then some n else none }
          | none => { u with experience_years := none }
      else u
    | none => u
  let u := match data.role with
    | some r =>
      let r := pyLower (pyStrip r)
      if r = "mentor" ∨ r = "mentee" ∨ r = "both" then
        { u with row := { u.row with role := r } }
      else u
    | none => u
  (u, u.row.to_dict_basic)

/-- Round half to even of a rational to an integer: the tie rule used
both by IEEE binary64 arithmetic and by CPython's float-to-decimal
conversion. -/
def roundHalfEven (x : ℚ) : Int :=
  let fl := ⌊x⌋
  if x - fl < 1/2 then fl
  else if x - fl > 1/2 then fl + 1
  else if Even fl then fl else fl + 1

/-- The exact rational value of the IEEE binary64 double nearest to
`q` (round to nearest, ties to even): the significand granularity is
`2 ^ (e - 52)` for a value in binade `e`, floored at the subnormal
granularity `2 ^ (-1074)`.  CPython's int/int true division
(`sum(...) / len(...)` in `list_users`) is correctly rounded into this
format.  Binary64 overflow, which CPython reports as OverflowError
rather than producing a float, lies far outside the range of any
stored rating mean and is not modelled. -/
def toDouble (q : ℚ) : ℚ :=
  if q = 0 then 0
  else
    (if q < 0 then -1 else 1) *
      ((roundHalfEven (|q| / (2:ℚ) ^ (max (Int.log 2 |q|) (-1022) - 52)) : ℚ) *
        (2:ℚ) ^ (max (Int.log 2 |q|) (-1022) - 52))

/-- CPython `round(x, 1)` on a float `x`: the exact value of the
double `x` is rounded to one decimal digit with ties to even (as
`_Py_dg_dtoa` mode 3 does) and the resulting decimal is read back as
the nearest double. -/
def pyRound1 (x : ℚ) : ℚ := toDouble ((roundHalfEven (x * 10) : ℚ) / 10)

/-- The spec's words "the arithmetic mean of the ratings ... rounded
to 1 decimal place" applied to the exact rational mean (ties to even).
This is NOT what the program computes — `round(sum/len, 1)` rounds an
IEEE double — and the two disagree at decimal ties such as a mean of
87/20; the divergence is exhibited in the C6 counterexample. -/
def specRound1 (x : ℚ) : ℚ := (roundHalfEven (x * 10) : ℚ) / 10

/-- Case-insensitive substring containment, the semantics of SQL
`ILIKE '%pat%'` on a non-NULL column. -/
def strContainsCI (hay pat : String) : Bool :=
  let h := hay.data.map Char.toLower
  let p := pat.data.map Char.toLower
  (List.range (h.length + 1)).any (fun k => p.isPrefixOf (h.drop k))

/-- `column ILIKE '%pat%'` where the column is nullable: NULL never
matches. -/
def likeMatch (field : Option String) (pat : String) : Bool :=
  match field with
  | none => false
  | some s => strContainsCI s pat

/-- The per-user dictionary built inside app.py `list_users`:
`to_dict_basic` with `email` popped, plus `average_rating`
(`round(sum(...)/len(...), 1)` in binary64 arithmetic: the exact mean
rounded to the nearest double, then CPython's 1-decimal float round)
and `total_reviews`; `null` / `0` when there is no feedback. -/
def userListing (dbFeedback : List Feedback) (u : User) : List (String × JsonVal) :=
  let base := popKey "email" u.to_dict_basic
  let fbs := dbFeedback.filter (fun f => f.target_user_id = u.id)
  if fbs.isEmpty then
    base ++ [("average_rating", .null), ("total_reviews", .i 0)]
  else
    let avg : ℚ := toDouble (((fbs.map (fun f => (f.rating : ℚ))).sum) / (fbs.length : ℚ))
    base ++ [("average_rating", .f (pyRound1 avg)), ("total_reviews", .i (fbs.length : Int))]

/-- Ordering used by `ORDER BY created_at DESC`. -/
def createdDesc (a b : User) : Prop := b.created_at ≤ a.created_at

instance : DecidableRel createdDesc :=
  fun a b => inferInstanceAs (Decidable (b.created_at ≤ a.created_at))

instance : IsTotal User createdDesc := ⟨fun a b => le_total b.created_at a.created_at⟩

instance : IsTrans User createdDesc :=
  ⟨fun _ _ _ h1 h2 => le_trans h2 h1⟩

/-- app.py `list_users`: role filter (an explicit valid `role`
parameter wins; otherwise, unless `show_all` is true, only
mentor/both), search filter, exclusion of the caller, `ORDER BY
created_at DESC`, then per-user serialisation. -/
def list_users (dbUsers : List User) (dbFeedback : List Feedback) (current : User)
    (roleParam show_allParam qParam : String) : List (List (String × JsonVal)) :=
  let role := pyLower (pyStrip roleParam)
  let show_all := pyLower show_allParam = "true"
  let step1 :=
    if role = "mentor" ∨ role = "mentee" ∨ role = "both" then
      dbUsers.filter (fun u => u.role = role)
    else if ¬ show_all then
      dbUsers.filter (fun u => u.role = "mentor" ∨ u.role = "both")
    else dbUsers
  let search := pyStrip qParam
  let step2 :=
    if search ≠ "" then
      step1.filter (fun u =>
        likeMatch (some u.name) search ∨ likeMatch u.interests search ∨
          likeMatch u.skills search)
    else step1
  let step3 := step2.filter (fun u => u.id ≠ current.id)
  let sorted := List.insertionSort createdDesc step3
  sorted.map (userListing dbFeedback)

/-- POST /api/sessions request body.  `mentor_id` keeps its raw JSON
value (the handler compares and stores it untyped); the other fields
are strings when present. -/
structure SessionCreateBody where
  mentor_id : JsonVal
  topic : Option String
  description : Option String
  scheduled_time : Option String
  meeting_link : Option String
deriving Repr

/-- app.py `sessions_route` (POST branch): create a session request.
`parseIso` abstracts `datetime.fromisoformat` (`none` = `ValueError`);
`newId`/`now` are the storage-assigned id and current timestamp. -/
def sessions_post (dbUsers : List User) (dbSessions : List Session)
    (parseIso : String → Option Int) (user : User) (body : SessionCreateBody)
    (newId now : Int) : Except HttpError Session :=
  let mentor_id := body.mentor_id
  let topic := pyStrip (body.topic.getD "")
  let description := pyStrip (body.description.getD "")
  let meeting_link := pyStrip (body.meeting_link.getD "")
  if ¬ mentor_id.truthy ∨ topic = "" then
    .error ⟨400, "Mentor and topic are required"⟩
  else if pyEqInt mentor_id user.id then
    .error ⟨400, "You cannot request yourself as a mentor"⟩
  else
    match dbUsers.find? (fun m => dbCoerceId mentor_id = some m.id) with
    | none => .error ⟨404, "Mentor not found"⟩
    | some mentor =>
      if ¬ (mentor.role = "mentor" ∨ mentor.role = "both") then
        .error ⟨400, "This user is not available as a mentor"⟩
      else if (dbSessions.find? (fun s =>
          s.requester_id = user.id ∧ dbCoerceId mentor_id = some s.mentor_id ∧
            s.topic = topic ∧
            (s.status = SessionStatus.PENDING ∨ s.status = SessionStatus.ACCEPTED))).isSome then
        .error ⟨400, "You already have a pending or accepted session with this mentor for this topic"⟩
      else
        let schedRes : Except HttpError (Option Int) :=
          match body.scheduled_time with
          | some str =>
            if str ≠ "" then
              match parseIso str with
              | some t => .ok (some t)
              | none => .error ⟨400, "Invalid scheduled_time format. Use ISO 8601 format."⟩
            else .ok none
          | none => .ok none
        match schedRes with
        | .error e => .error e
        | .ok sched =>
          .ok { id := newId, requester_id := user.id, mentor_id := mentor.id,
                topic := topic, description := some description,
                scheduled_time := sched, meeting_link := some meeting_link,
                status := SessionStatus.PENDING, created_at := now, updated_at := now }

/-- The `sessions` table after the POST handler runs: a row is appended
exactly when the handler succeeds. -/
def sessions_post_db (dbUsers : List User) (dbSessions : List Session)
    (parseIso : String → Option Int) (user : User) (body : SessionCreateBody)
    (newId now : Int) : List Session :=
  match sessions_post dbUsers dbSessions parseIso user body newId now with
  | .ok s => dbSessions ++ [s]
  | .error _ => dbSessions

/-- PUT /api/sessions/(id)/status request body: `status` keeps its raw
JSON value (compared against the status strings); `meeting_link` is a
string when present (`data.get("meeting_link", "")`). -/
structure StatusBody where
  status : JsonVal
  meeting_link : Option String
deriving Repr

/-- app.py `update_session_status`: validate the target status, apply
the mentor-only / participant-only authorisation and the state-machine
checks, then update the row.  On success the returned session is the
committed row (`updated_at` refreshed by the model's `onupdate`); on
error nothing is written.  -/
def update_session_status (user : User) (sess : Session) (body : StatusBody)
    (now : Int) : Except HttpError Session :=
  let meeting_link := pyStrip (body.meeting_link.getD "")
  match body.status with
  | .s new_status =>
    if ¬ (new_status = SessionStatus.ACCEPTED ∨ new_status = SessionStatus.REJECTED ∨
        new_status = SessionStatus.COMPLETED) then
      .error ⟨400, "Invalid status"⟩
    else if new_status = SessionStatus.ACCEPTED ∨ new_status = SessionStatus.REJECTED then
      if user.id ≠ sess.mentor_id then
        .error ⟨403, "Only the mentor can accept or reject sessions"⟩
      else if sess.status ≠ SessionStatus.PENDING then
        .error ⟨400, "Only pending sessions can be accepted or rejected"⟩
      else
        let sess := if new_status = SessionStatus.ACCEPTED ∧ meeting_link ≠ "" then
            { sess with meeting_link := some meeting_link }
          else sess
        .ok { sess with status := new_status, updated_at := now }
    else
      if ¬ (user.id = sess.mentor_id ∨ user.id = sess.requester_id) then
        .error ⟨403, "You are not authorized to update this session"⟩
      else if ¬ (sess.status = SessionStatus.ACCEPTED ∨ sess.status = SessionStatus.COMPLETED) then
        .error ⟨400, "Session must be accepted before it can be completed"⟩
      else
        .ok { sess with status := new_status, updated_at := now }
  | _ => .error ⟨400, "Invalid status"⟩

/-- The stored session row after one PUT /api/sessions/(id)/status
call: the updated row on success, the unchanged row on any failure
(every error path returns before mutating, and exceptions roll back). -/
def update_session_status_db (user : User) (sess : Session) (body : StatusBody)
    (now : Int) : Session :=
  match update_session_status user sess body now with
  | .ok s => s
  | .error _ => sess

/-- One status-update request in a call sequence: who called, with what
body, at what time. -/
structure StatusCall where
  user : User
  body : StatusBody
  now : Int

/-- The stored session row after a whole sequence of
PUT /api/sessions/(id)/status calls; `update_session_status` is the
only exposed operation that writes a session's `status`. -/
def runStatusCalls (sess : Session) (calls : List StatusCall) : Session :=
  calls.foldl (fun s c => update_session_status_db c.user s c.body c.now) sess

/-- POST /api/sessions/(id)/feedback request body. -/
structure FeedbackBody where
  rating : JsonVal
  comment : Option String
deriving Repr

/-- app.py `create_feedback`: participant check, completed check,
duplicate check, then `int(rating)` conversion and the 1..5 range
check; on success the stored feedback row targets the other
participant. -/
def create_feedback (user : User) (sess : Session) (dbFeedback : List Feedback)
    (body : FeedbackBody) (newId now : Int) : Except HttpError Feedback :=
  if ¬ (user.id = sess.requester_id ∨ user.id = sess.mentor_id) then
    .error ⟨403, "You are not part of this session"⟩
  else if sess.status ≠ SessionStatus.COMPLETED then
    .error ⟨400, "Feedback can only be given for completed sessions"⟩
  else if (dbFeedback.find? (fun f =>
      f.session_id = sess.id ∧ f.author_id = user.id)).isSome then
    .error ⟨400, "You have already left feedback for this session"⟩
  else
    let comment := pyStrip (body.comment.getD "")
    match pyInt body.rating with
    | none => .error ⟨400, "Rating must be a number"⟩
    | some rating =>
      if rating < 1 ∨ rating > 5 then
        .error ⟨400, "Rating must be between 1 and 5"⟩
      else
        let target_user_id :=
          if user.id = sess.requester_id then sess.mentor_id else sess.requester_id
        .ok { id := newId, session_id := sess.id, author_id := user.id,
              target_user_id := target_user_id, rating := rating,
              comment := some comment, created_at := now }

/-! ## Theorems -/

/-- C4: `validate_password` checks its rules in the fixed order
length → uppercase → lowercase → digit and reports the first failing
rule's message: every empty password fails with "Password is required";
every shorter-than-minimum password fails with the length message;
otherwise missing uppercase, then missing lowercase, then missing digit
each fail with their own message, and a password satisfying all rules
passes.  In particular (at the default minimum 8): "short1A" fails the
length check, "alllowercase1" the uppercase check, "ALLUPPERCASE1" the
lowercase check, "NoDigitsHere" the digit check, and "Valid123"
passes. -/
theorem validate_password_first_failing_rule (minLength : Nat) (password : String) :
    (password = "" →
      validate_password minLength password = (false, some "Password is required")) ∧
    (password ≠ "" → password.length < minLength →
      validate_password minLength password =
        (false, some ("Password must be at least " ++ toString minLength ++
          " characters long"))) ∧
    (password ≠ "" → ¬ password.length < minLength → ¬ password.data.any Char.isUpper →
      validate_password minLength password =
        (false, some "Password must contain at least one uppercase letter")) ∧
    (password ≠ "" → ¬ password.length < minLength → password.data.any Char.isUpper →
      ¬ password.data.any Char.isLower →
      validate_password minLength password =
        (false, some "Password must contain at least one lowercase letter")) ∧
    (password ≠ "" → ¬ password.length < minLength → password.data.any Char.isUpper →
      password.data.any Char.isLower → ¬ password.data.any Char.isDigit →
      validate_password minLength password =
        (false, some "Password must contain at least one number")) ∧
    (password ≠ "" → ¬ password.length < minLength → password.data.any Char.isUpper →
      password.data.any Char.isLower → password.data.any Char.isDigit →
      validate_password minLength password = (true, none)) ∧
    validate_password 8 "short1A" =
      (false, some "Password must be at least 8 characters long") ∧
    validate_password 8 "alllowercase1" =
      (false, some "Password must contain at least one uppercase letter") ∧
    validate_password 8 "ALLUPPERCASE1" =
      (false, some "Password must contain at least one lowercase letter") ∧
    validate_password 8 "NoDigitsHere" =
      (false, some "Password must contain at least one number") ∧
    validate_password 8 "Valid123" = (true, none) := by
  refine ⟨?_, ?_, ?_, ?_, ?_, ?_, ?_, ?_, ?_, ?_, ?_⟩
  · intro h; simp [validate_password, h]
  · intro h1 h2; simp [validate_password, h1, h2]
  · intro h1 h2 h3; simp [validate_password, h1, h2, h3]
  · intro h1 h2 h3 h4; simp [validate_password, h1, h2, h3, h4]
  · intro h1 h2 h3 h4 h5; simp [validate_password, h1, h2, h3, h4, h5]
  · intro h1 h2 h3 h4 h5; simp [validate_password, h1, h2, h3, h4, h5]
  · decide
  · decide
  · decide
  · decide
  · decide

/-- C4 witness: the hypotheses of the rule-order conjuncts are
satisfiable and the theorem evaluates them at a concrete password. -/
theorem validate_password_first_failing_rule_witness :
    validate_password 8 "" = (false, some "Password is required") :=
  (validate_password_first_failing_rule 8 "").1 rfl

/-- C7: `login` produces the observationally identical failure response
(status 401, error "Invalid email or password") both when no user
matches the email and when a user matches but the password hash check
fails. -/
theorem login_failure_indistinguishable (dbUsers : List User)
    (hashCheck : String → String → Bool) (email password : String)
    (hEmail : pyLower (pyStrip email) ≠ "") (hPw : password ≠ "") :
    (dbUsers.find? (fun u => u.email = pyLower (pyStrip email)) = none →
      login dbUsers hashCheck email password =
        .error ⟨401, "Invalid email or password"⟩) ∧
    (∀ u, dbUsers.find? (fun u => u.email = pyLower (pyStrip email)) = some u →
      hashCheck u.password_hash password = false →
      login dbUsers hashCheck email password =
        .error ⟨401, "Invalid email or password"⟩) := by
  constructor
  · intro hNone
    simp [login, hEmail, hPw, hNone]
  · intro u hFound hHash
    simp [login, hEmail, hPw, hFound, hHash]

/-- C7 witness: both failure branches at concrete inputs — an unknown
email against a one-user store, and a known email with a failing hash
check. -/
theorem login_failure_indistinguishable_witness :
    (login [{ id := 1, name := "A", email := "a@x.com", password_hash := "h", bio := none, interests := none, skills := none, experience := none, role := "mentor", created_at := 0 }] (fun _ _ => false) "b@x.com" "pw" = .error ⟨401, "Invalid email or password"⟩) ∧
    (login [{ id := 1, name := "A", email := "a@x.com", password_hash := "h", bio := none, interests := none, skills := none, experience := none, role := "mentor", created_at := 0 }] (fun _ _ => false) "a@x.com" "pw" = .error ⟨401, "Invalid email or password"⟩) := by
  constructor
  · exact (login_failure_indistinguishable _ (fun _ _ => false) "b@x.com" "pw"
      (by decide) (by decide)).1 (by decide)
  · exact (login_failure_indistinguishable _ (fun _ _ => false) "a@x.com" "pw"
      (by decide) (by decide)).2
      { id := 1, name := "A", email := "a@x.com", password_hash := "h", bio := none, interests := none, skills := none, experience := none, role := "mentor", created_at := 0 }
      (by decide) rfl

/-- A one-user store for the C1 analysis: user 1 has role `mentor`. -/
def c1User : User :=
  { id := 1, name := "A", email := "a@x.com", password_hash := "h", bio := none, interests := none, skills := none, experience := none, role := "mentor", created_at := 100 }

/-- A POST /api/sessions body whose `mentor_id` is the caller's own id
encoded as a JSON string. -/
def c1Body : SessionCreateBody :=
  { mentor_id := .s "1", topic := some "math", description := none, scheduled_time := none, meeting_link := none }

/-- C1 counterexample: the claim "no session whose requester and mentor
are the same user is ever created by this endpoint, regardless of how
the mentor_id value is encoded" is false.  With `mentor_id` encoded as
the JSON string "1", the self-check `mentor_id == user.id` compares a
string with an int and is false, while the database lookup and insert
coerce the digit string to the caller's own id: the request succeeds
and creates a session whose requester and mentor are both user 1. -/
theorem sessions_post_self_string_counterexample :
    sessions_post [c1User] [] (fun _ => none) c1User c1Body 10 200 =
      .ok { id := 10, requester_id := 1, mentor_id := 1, topic := "math", description := some "", scheduled_time := none, meeting_link := some "", status := "pending", created_at := 200, updated_at := 200 } ∧
    sessions_post_db [c1User] [] (fun _ => none) c1User c1Body 10 200 =
      [{ id := 10, requester_id := 1, mentor_id := 1, topic := "math", description := some "", scheduled_time := none, meeting_link := some "", status := "pending", created_at := 200, updated_at := 200 }] := by
  constructor
  · rfl
  · rfl

/-- C1 (amended): the self-request rejection holds for every
`mentor_id` value that compares equal to the caller's id under the
handler's (Python) equality — in particular for the id sent as a JSON
number: the request fails with 400 "You cannot request yourself as a
mentor" and the sessions table is unchanged. -/
theorem sessions_post_self_pyeq_rejected (dbUsers : List User)
    (dbSessions : List Session) (parseIso : String → Option Int) (user : User)
    (body : SessionCreateBody) (newId now : Int)
    (hTruthy : body.mentor_id.truthy = true)
    (hTopic : pyStrip (body.topic.getD "") ≠ "")
    (hSelf : pyEqInt body.mentor_id user.id = true) :
    sessions_post dbUsers dbSessions parseIso user body newId now =
      .error ⟨400, "You cannot request yourself as a mentor"⟩ ∧
    sessions_post_db dbUsers dbSessions parseIso user body newId now = dbSessions := by
  have h1 : sessions_post dbUsers dbSessions parseIso user body newId now =
      .error ⟨400, "You cannot request yourself as a mentor"⟩ := by
    simp only [sessions_post]
    rw [if_neg, if_pos]
    · exact hSelf
    · simp [hTruthy, hTopic]
  exact ⟨h1, by simp [sessions_post_db, h1]⟩

/-- C1 amended-claim witness: user 1 requesting themself with
`mentor_id` as the JSON number 1 is rejected and creates nothing. -/
theorem sessions_post_self_pyeq_rejected_witness :
    sessions_post [c1User] [] (fun _ => none) c1User { c1Body with mentor_id := .i 1 } 10 200 =
      .error ⟨400, "You cannot request yourself as a mentor"⟩ ∧
    sessions_post_db [c1User] [] (fun _ => none) c1User { c1Body with mentor_id := .i 1 } 10 200 = [] :=
  sessions_post_self_pyeq_rejected [c1User] [] (fun _ => none) c1User
    { c1Body with mentor_id := .i 1 } 10 200 (by decide) (by decide) (by decide)

/-- The caller row used in the C2 analysis: a mentor-role user with no
stored experience text. -/
def c2User : User :=
  { id := 7, name := "M", email := "m@x.com", password_hash := "h", bio := none, interests := none, skills := none, experience := none, role := "mentor", created_at := 50 }

/-- A PUT /api/profile body carrying only `experience_years: 5`. -/
def c2Body : ProfileBody :=
  { name := none, bio := none, interests := none, skills := none, experience_years := some (.i 5), role := none }

/-- C2 (code bug): a mentor-role caller sends `experience_years: 5`,
the handler runs without error, yet the persisted row is completely
unchanged (models.py's `User` has an `experience` column but no
`experience_years` column, so app.py's assignment lands on a transient
Python attribute) and the returned representation has no
`experience_years` key — the value is neither stored nor reflected.
The assignment is visible only on the in-memory object. -/
theorem profile_put_experience_years_not_persisted :
    (profile_put ⟨c2User, none⟩ c2Body).1.row = c2User ∧
    (profile_put ⟨c2User, none⟩ c2Body).1.experience_years = some 5 ∧
    lookupKey "experience_years" (profile_put ⟨c2User, none⟩ c2Body).2 = none ∧
    lookupKey "experience" (profile_put ⟨c2User, none⟩ c2Body).2 = some .null := by
  refine ⟨?_, ?_, ?_, ?_⟩ <;> decide

/-- Once the participant/completed/duplicate guards pass,
`create_feedback` is the rating conversion and range check. -/
theorem create_feedback_after_guards (user : User) (sess : Session)
    (dbFeedback : List Feedback) (body : FeedbackBody) (newId now : Int)
    (hPart : user.id = sess.requester_id ∨ user.id = sess.mentor_id)
    (hDone : sess.status = SessionStatus.COMPLETED)
    (hNoDup : dbFeedback.find? (fun f =>
      f.session_id = sess.id ∧ f.author_id = user.id) = none) :
    create_feedback user sess dbFeedback body newId now =
      (match pyInt body.rating with
       | none => .error ⟨400, "Rating must be a number"⟩
       | some rating =>
         if rating < 1 ∨ rating > 5 then
           .error ⟨400, "Rating must be between 1 and 5"⟩
         else
           .ok { id := newId, session_id := sess.id, author_id := user.id,
                 target_user_id := if user.id = sess.requester_id then
                   sess.mentor_id else sess.requester_id,
                 rating := rating,
                 comment := some (pyStrip (body.comment.getD "")),
                 created_at := now }) := by
  simp only [create_feedback]
  rw [if_neg (not_not_intro hPart),
    if_neg (fun hne => hne hDone),
    if_neg (by rw [hNoDup]; simp)]

/-- C10: feedback accepts any rating value on which Python integer
conversion succeeds, not only JSON integers — given a completed session
and a participant caller with no prior feedback, conversion failure
(`null`, a non-numeric string) yields "Rating must be a number", a
converted value outside 1..5 yields "Rating must be between 1 and 5",
and an in-range converted value is accepted and stored; in particular
JSON `true` is stored as rating 1, `4.9` truncates toward zero to 4,
and 1 and 5 are accepted at the boundary. -/
theorem create_feedback_rating_conversion (user : User) (sess : Session)
    (dbFeedback : List Feedback) (comment : Option String) (newId now : Int)
    (hPart : user.id = sess.requester_id ∨ user.id = sess.mentor_id)
    (hDone : sess.status = SessionStatus.COMPLETED)
    (hNoDup : dbFeedback.find? (fun f =>
      f.session_id = sess.id ∧ f.author_id = user.id) = none) :
    (∀ v : JsonVal, pyInt v = none →
      create_feedback user sess dbFeedback ⟨v, comment⟩ newId now =
        .error ⟨400, "Rating must be a number"⟩) ∧
    (∀ v n, pyInt v = some n → (n < 1 ∨ n > 5) →
      create_feedback user sess dbFeedback ⟨v, comment⟩ newId now =
        .error ⟨400, "Rating must be between 1 and 5"⟩) ∧
    (∀ v n, pyInt v = some n → 1 ≤ n → n ≤ 5 →
      ∃ fb, create_feedback user sess dbFeedback ⟨v, comment⟩ newId now = .ok fb ∧
        fb.rating = n) ∧
    (∃ fb, create_feedback user sess dbFeedback ⟨.b true, comment⟩ newId now = .ok fb ∧
      fb.rating = 1) ∧
    (∃ fb, create_feedback user sess dbFeedback ⟨.f (49/10), comment⟩ newId now = .ok fb ∧
      fb.rating = 4) ∧
    create_feedback user sess dbFeedback ⟨.null, comment⟩ newId now =
      .error ⟨400, "Rating must be a number"⟩ ∧
    create_feedback user sess dbFeedback ⟨.s "great", comment⟩ newId now =
      .error ⟨400, "Rating must be a number"⟩ ∧
    create_feedback user sess dbFeedback ⟨.i 0, comment⟩ newId now =
      .error ⟨400, "Rating must be between 1 and 5"⟩ ∧
    create_feedback user sess dbFeedback ⟨.i 6, comment⟩ newId now =
      .error ⟨400, "Rating must be between 1 and 5"⟩ ∧
    (∃ fb, create_feedback user sess dbFeedback ⟨.i 1, comment⟩ newId now = .ok fb ∧
      fb.rating = 1) ∧
    (∃ fb, create_feedback user sess dbFeedback ⟨.i 5, comment⟩ newId now = .ok fb ∧
      fb.rating = 5) := by
  have hNone : ∀ v : JsonVal, pyInt v = none →
      create_feedback user sess dbFeedback ⟨v, comment⟩ newId now =
        .error ⟨400, "Rating must be a number"⟩ := by
    intro v hv
    rw [create_feedback_after_guards user sess dbFeedback _ newId now hPart hDone hNoDup, hv]
  have hRange : ∀ v n, pyInt v = some n → (n < 1 ∨ n > 5) →
      create_feedback user sess dbFeedback ⟨v, comment⟩ newId now =
        .error ⟨400, "Rating must be between 1 and 5"⟩ := by
    intro v n hv hn
    rw [create_feedback_after_guards user sess dbFeedback _ newId now hPart hDone hNoDup, hv]
    simp [if_pos hn]
  have hOk : ∀ v n, pyInt v = some n → 1 ≤ n → n ≤ 5 →
      ∃ fb, create_feedback user sess dbFeedback ⟨v, comment⟩ newId now = .ok fb ∧
        fb.rating = n := by
    intro v n hv h1 h5
    rw [create_feedback_after_guards user sess dbFeedback _ newId now hPart hDone hNoDup, hv]
    have hnr : ¬ (n < 1 ∨ n > 5) := by omega
    simp only [hnr, if_false]
    exact ⟨_, rfl, rfl⟩
  refine ⟨hNone, hRange, hOk, ?_, ?_, hNone _ rfl, hNone _ (by decide), ?_, ?_, ?_, ?_⟩
  · exact hOk (.b true) 1 rfl (by omega) (by omega)
  · refine hOk (.f (49/10)) 4 ?_ (by omega) (by omega)
    show some (ratTruncToZero (49/10)) = some 4
    rw [ratTruncToZero, if_pos (by norm_num)]
    norm_num [Int.floor_eq_iff]
  · exact hRange (.i 0) 0 rfl (by omega)
  · exact hRange (.i 6) 6 rfl (by omega)
  · exact hOk (.i 1) 1 rfl (by omega) (by omega)
  · exact hOk (.i 5) 5 rfl (by omega) (by omega)

/-- C10 witness: concrete completed session, requester leaves `true` as
the rating, stored as 1. -/
theorem create_feedback_rating_conversion_witness :
    ∃ fb, create_feedback
      { id := 1, name := "A", email := "a@x.com", password_hash := "h", bio := none, interests := none, skills := none, experience := none, role := "mentee", created_at := 0 }
      { id := 3, requester_id := 1, mentor_id := 2, topic := "t", description := none, scheduled_time := none, meeting_link := none, status := "completed", created_at := 0, updated_at := 0 }
      [] ⟨.b true, none⟩ 9 10 = .ok fb ∧ fb.rating = 1 :=
  (create_feedback_rating_conversion _ _ [] none 9 10 (by decide) (by decide) rfl).2.2.2.1

/-- A status-update call on a rejected session always fails and leaves
the stored row untouched: accept/reject require a pending session,
completion requires an accepted or completed one, and `pending` is not
an accepted target status. -/
theorem update_session_status_db_rejected_fixed (user : User) (sess : Session)
    (body : StatusBody) (now : Int)
    (h : sess.status = SessionStatus.REJECTED) :
    update_session_status_db user sess body now = sess := by
  rcases body with ⟨st, ml⟩
  cases st <;>
    simp only [update_session_status_db, update_session_status, h] <;>
    split_ifs <;>
    simp_all [SessionStatus.PENDING, SessionStatus.ACCEPTED,
      SessionStatus.REJECTED, SessionStatus.COMPLETED]

/-- C8: rejected is a terminal state — starting from a session whose
status is `rejected`, no sequence of PUT /api/sessions/(id)/status
calls (the only exposed operation that writes a session's status) ever
changes the stored row, so its status remains `rejected`. -/
theorem rejected_is_terminal (sess : Session)
    (h : sess.status = SessionStatus.REJECTED) (calls : List StatusCall) :
    runStatusCalls sess calls = sess ∧
    (runStatusCalls sess calls).status = SessionStatus.REJECTED := by
  have hrun : runStatusCalls sess calls = sess := by
    induction calls with
    | nil => rfl
    | cons c cs ih =>
      have hstep := update_session_status_db_rejected_fixed c.user sess c.body c.now h
      simpa [runStatusCalls, hstep] using ih
  exact ⟨hrun, by rw [hrun]; exact h⟩

/-- C8 witness: a concrete rejected session survives the mentor trying
to accept it and either party trying to complete it. -/
theorem rejected_is_terminal_witness :
    runStatusCalls
      { id := 3, requester_id := 1, mentor_id := 2, topic := "t", description := none, scheduled_time := none, meeting_link := none, status := "rejected", created_at := 0, updated_at := 0 }
      [ { user := { id := 2, name := "B", email := "b@x.com", password_hash := "h", bio := none, interests := none, skills := none, experience := none, role := "mentor", created_at := 0 }, body := { status := .s "accepted", meeting_link := none }, now := 5 },
        { user := { id := 1, name := "A", email := "a@x.com", password_hash := "h", bio := none, interests := none, skills := none, experience := none, role := "mentee", created_at := 0 }, body := { status := .s "completed", meeting_link := none }, now := 6 } ] =
      { id := 3, requester_id := 1, mentor_id := 2, topic := "t", description := none, scheduled_time := none, meeting_link := none, status := "rejected", created_at := 0, updated_at := 0 } :=
  (rejected_is_terminal _ rfl _).1

/-- C3: PUT /api/sessions/(id)/status obeys the state machine.  Target
`accepted`/`rejected`: 403 for any caller other than the mentor, 400
unless the current status is `pending`, success otherwise.  Target
`completed`: 403 for a non-participant, 400 unless the current status
is `accepted` or `completed` (so `completed → completed` is an
idempotent success), success otherwise.  Any other target status
(including non-string JSON values) gives 400 "Invalid status", and on
every failure the stored row is unchanged. -/
theorem update_session_status_state_machine (user : User) (sess : Session)
    (body : StatusBody) (now : Int) :
    (¬ (body.status = .s SessionStatus.ACCEPTED ∨ body.status = .s SessionStatus.REJECTED ∨
        body.status = .s SessionStatus.COMPLETED) →
      update_session_status user sess body now = .error ⟨400, "Invalid status"⟩) ∧
    ((body.status = .s SessionStatus.ACCEPTED ∨ body.status = .s SessionStatus.REJECTED) →
      user.id ≠ sess.mentor_id →
      update_session_status user sess body now =
        .error ⟨403, "Only the mentor can accept or reject sessions"⟩) ∧
    ((body.status = .s SessionStatus.ACCEPTED ∨ body.status = .s SessionStatus.REJECTED) →
      user.id = sess.mentor_id → sess.status ≠ SessionStatus.PENDING →
      update_session_status user sess body now =
        .error ⟨400, "Only pending sessions can be accepted or rejected"⟩) ∧
    (∀ str, body.status = .s str →
      (str = SessionStatus.ACCEPTED ∨ str = SessionStatus.REJECTED) →
      user.id = sess.mentor_id → sess.status = SessionStatus.PENDING →
      ∃ s2, update_session_status user sess body now = .ok s2 ∧ s2.status = str) ∧
    (body.status = .s SessionStatus.COMPLETED →
      ¬ (user.id = sess.mentor_id ∨ user.id = sess.requester_id) →
      update_session_status user sess body now =
        .error ⟨403, "You are not authorized to update this session"⟩) ∧
    (body.status = .s SessionStatus.COMPLETED →
      (user.id = sess.mentor_id ∨ user.id = sess.requester_id) →
      ¬ (sess.status = SessionStatus.ACCEPTED ∨ sess.status = SessionStatus.COMPLETED) →
      update_session_status user sess body now =
        .error ⟨400, "Session must be accepted before it can be completed"⟩) ∧
    (body.status = .s SessionStatus.COMPLETED →
      (user.id = sess.mentor_id ∨ user.id = sess.requester_id) →
      (sess.status = SessionStatus.ACCEPTED ∨ sess.status = SessionStatus.COMPLETED) →
      ∃ s2, update_session_status user sess body now = .ok s2 ∧
        s2.status = SessionStatus.COMPLETED) ∧
    (∀ e, update_session_status user sess body now = .error e →
      update_session_status_db user sess body now = sess) := by
  refine ⟨?_, ?_, ?_, ?_, ?_, ?_, ?_, ?_⟩
  · intro hInv
    rcases hb : body.status with _ | x | n | q | str <;>
      simp only [update_session_status, hb] <;> try rfl
    rw [hb] at hInv
    have hstr : ¬ (str = SessionStatus.ACCEPTED ∨ str = SessionStatus.REJECTED ∨
        str = SessionStatus.COMPLETED) := by simpa using hInv
    rw [if_pos hstr]
  · rintro (hb | hb) hm <;>
      simp [update_session_status, hb, SessionStatus.ACCEPTED, SessionStatus.REJECTED, hm]
  · rintro (hb | hb) hm hp <;>
      simp [update_session_status, hb, SessionStatus.ACCEPTED, SessionStatus.REJECTED, hm] <;>
      exact hp
  · rintro str hb (hs | hs) <;> intro hm hp <;> subst hs <;>
      simp [update_session_status, hb, SessionStatus.ACCEPTED, SessionStatus.REJECTED,
        SessionStatus.PENDING, hm, hp]
  · intro hb hnp
    simp [update_session_status, hb, SessionStatus.ACCEPTED, SessionStatus.REJECTED,
      SessionStatus.COMPLETED, hnp]
  · intro hb hpart hns
    have hns2 : ¬ (sess.status = "accepted" ∨ sess.status = "completed") := hns
    rcases hpart with hpart | hpart <;>
      simp [update_session_status, hb, SessionStatus.ACCEPTED, SessionStatus.REJECTED,
        SessionStatus.COMPLETED, hpart, hns2]
  · intro hb hpart hs
    have hs2 : sess.status = "accepted" ∨ sess.status = "completed" := hs
    rcases hpart with hpart | hpart <;> rcases hs2 with hs1 | hs1 <;>
      simp [update_session_status, hb, SessionStatus.ACCEPTED, SessionStatus.REJECTED,
        SessionStatus.COMPLETED, hpart, hs1]
  · intro e he
    simp [update_session_status_db, he]

/-- C3 witness: the mentor of a concrete pending session accepts it. -/
theorem update_session_status_state_machine_witness :
    ∃ s2, update_session_status
      { id := 2, name := "B", email := "b@x.com", password_hash := "h", bio := none, interests := none, skills := none, experience := none, role := "mentor", created_at := 0 }
      { id := 3, requester_id := 1, mentor_id := 2, topic := "t", description := none, scheduled_time := none, meeting_link := none, status := "pending", created_at := 0, updated_at := 0 }
      { status := .s "accepted", meeting_link := none } 9 = .ok s2 ∧
      s2.status = "accepted" :=
  (update_session_status_state_machine _ _ _ 9).2.2.2.1 "accepted" rfl (Or.inl rfl) rfl rfl

/-- C9: a successful status update only ever writes the `status` field,
the `updated_at` timestamp, and — solely on an `accepted` transition
that supplies a non-empty (after strip) meeting link — `meeting_link`;
`requester_id`, `mentor_id`, `topic`, `description`, `scheduled_time`
and `created_at` are always preserved, `rejected`/`completed`
transitions never touch `meeting_link`, and accepting with an absent or
empty meeting link leaves the existing link in place. -/
theorem update_session_status_frame (user : User) (sess : Session) (body : StatusBody)
    (now : Int) (s2 : Session)
    (hok : update_session_status user sess body now = .ok s2) :
    s2.requester_id = sess.requester_id ∧
    s2.mentor_id = sess.mentor_id ∧
    s2.topic = sess.topic ∧
    s2.description = sess.description ∧
    s2.scheduled_time = sess.scheduled_time ∧
    s2.created_at = sess.created_at ∧
    s2.updated_at = now ∧
    (s2.meeting_link = sess.meeting_link ∨
      (body.status = .s SessionStatus.ACCEPTED ∧
        pyStrip (body.meeting_link.getD "") ≠ "" ∧
        s2.meeting_link = some (pyStrip (body.meeting_link.getD "")))) ∧
    ((body.status = .s SessionStatus.REJECTED ∨ body.status = .s SessionStatus.COMPLETED) →
      s2.meeting_link = sess.meeting_link) ∧
    (body.status = .s SessionStatus.ACCEPTED → pyStrip (body.meeting_link.getD "") = "" →
      s2.meeting_link = sess.meeting_link) := by
  rcases body with ⟨st, ml⟩
  rcases st with _ | x | n | q | str
  case null => exact absurd hok (by simp [update_session_status])
  case b => exact absurd hok (by simp [update_session_status])
  case i => exact absurd hok (by simp [update_session_status])
  case f => exact absurd hok (by simp [update_session_status])
  case s =>
  by_cases hA : str = SessionStatus.ACCEPTED
  · subst hA
    by_cases hm : user.id = sess.mentor_id
    · by_cases hp : sess.status = SessionStatus.PENDING
      · by_cases hml : pyStrip (ml.getD "") = ""
        · simp [update_session_status, SessionStatus.ACCEPTED, SessionStatus.REJECTED,
            SessionStatus.COMPLETED, SessionStatus.PENDING, hm, hp, hml] at hok
          subst hok
          refine ⟨rfl, rfl, rfl, rfl, rfl, rfl, rfl, Or.inl rfl, ?_, fun _ _ => rfl⟩
          rintro (h | h) <;> simp [SessionStatus.ACCEPTED, SessionStatus.REJECTED,
            SessionStatus.COMPLETED] at h
        · simp [update_session_status, SessionStatus.ACCEPTED, SessionStatus.REJECTED,
            SessionStatus.COMPLETED, SessionStatus.PENDING, hm, hp, hml] at hok
          subst hok
          refine ⟨rfl, rfl, rfl, rfl, rfl, rfl, rfl, Or.inr ⟨rfl, hml, rfl⟩, ?_, ?_⟩
          · rintro (h | h) <;> simp [SessionStatus.ACCEPTED, SessionStatus.REJECTED,
              SessionStatus.COMPLETED] at h
          · intro _ hml2; exact absurd hml2 hml
      · exact absurd hok (by simp [update_session_status, SessionStatus.ACCEPTED,
          SessionStatus.REJECTED, SessionStatus.COMPLETED, hm, hp])
    · exact absurd hok (by simp [update_session_status, SessionStatus.ACCEPTED,
        SessionStatus.REJECTED, SessionStatus.COMPLETED, hm])
  · by_cases hR : str = SessionStatus.REJECTED
    · subst hR
      by_cases hm : user.id = sess.mentor_id
      · by_cases hp : sess.status = SessionStatus.PENDING
        · simp [update_session_status, SessionStatus.ACCEPTED, SessionStatus.REJECTED,
            SessionStatus.COMPLETED, SessionStatus.PENDING, hm, hp] at hok
          subst hok
          refine ⟨rfl, rfl, rfl, rfl, rfl, rfl, rfl, Or.inl rfl, fun _ => rfl, ?_⟩
          intro h; simp [SessionStatus.ACCEPTED, SessionStatus.REJECTED] at h
        · exact absurd hok (by simp [update_session_status, SessionStatus.ACCEPTED,
            SessionStatus.REJECTED, SessionStatus.COMPLETED, hm, hp])
      · exact absurd hok (by simp [update_session_status, SessionStatus.ACCEPTED,
          SessionStatus.REJECTED, SessionStatus.COMPLETED, hm])
    · by_cases hC : str = SessionStatus.COMPLETED
      · subst hC
        by_cases hpart : user.id = sess.mentor_id ∨ user.id = sess.requester_id
        · by_cases hs : sess.status = SessionStatus.ACCEPTED ∨
              sess.status = SessionStatus.COMPLETED
          · simp only [update_session_status, SessionStatus.ACCEPTED, SessionStatus.REJECTED,
              SessionStatus.COMPLETED, SessionStatus.PENDING] at hok
            rw [if_neg (by simp), if_neg (by simp), if_neg (not_not_intro hpart),
              if_neg (not_not_intro
                (show sess.status = "accepted" ∨ sess.status = "completed" from hs))] at hok
            simp only [Except.ok.injEq] at hok
            subst hok
            refine ⟨rfl, rfl, rfl, rfl, rfl, rfl, rfl, Or.inl rfl, fun _ => rfl, ?_⟩
            intro h; simp [SessionStatus.ACCEPTED, SessionStatus.COMPLETED] at h
          · exact absurd hok (by
              simp only [update_session_status, SessionStatus.ACCEPTED, SessionStatus.REJECTED,
                SessionStatus.COMPLETED, SessionStatus.PENDING]
              rw [if_neg (by simp), if_neg (by simp), if_neg (not_not_intro hpart),
                if_pos (show ¬ (sess.status = "accepted" ∨ sess.status = "completed") from hs)]
              simp)
        · exact absurd hok (by
            simp only [update_session_status, SessionStatus.ACCEPTED, SessionStatus.REJECTED,
              SessionStatus.COMPLETED, SessionStatus.PENDING]
            rw [if_neg (by simp), if_neg (by simp),
              if_pos (show ¬ (user.id = sess.mentor_id ∨ user.id = sess.requester_id) from hpart)]
            simp)
      · have hA2 : ¬ str = "accepted" := hA
        have hR2 : ¬ str = "rejected" := hR
        have hC2 : ¬ str = "completed" := hC
        exact absurd hok (by
          simp [update_session_status, SessionStatus.ACCEPTED, SessionStatus.REJECTED,
            SessionStatus.COMPLETED, hA2, hR2, hC2])

/-- C9 witness: the mentor accepts a concrete pending session supplying
the meeting link "zoom"; only status, updated_at and meeting_link
change. -/
theorem update_session_status_frame_witness :
    ({ id := 3, requester_id := 1, mentor_id := 2, topic := "t", description := none, scheduled_time := none, meeting_link := some "zoom", status := "accepted", created_at := 0, updated_at := 9 } : Session).requester_id = 1 ∧
    ({ id := 3, requester_id := 1, mentor_id := 2, topic := "t", description := none, scheduled_time := none, meeting_link := some "zoom", status := "accepted", created_at := 0, updated_at := 9 } : Session).updated_at = 9 :=
  have h := update_session_status_frame
    { id := 2, name := "B", email := "b@x.com", password_hash := "h", bio := none, interests := none, skills := none, experience := none, role := "mentor", created_at := 0 }
    { id := 3, requester_id := 1, mentor_id := 2, topic := "t", description := none, scheduled_time := none, meeting_link := none, status := "pending", created_at := 0, updated_at := 0 }
    { status := .s "accepted", meeting_link := some "zoom" } 9
    { id := 3, requester_id := 1, mentor_id := 2, topic := "t", description := none, scheduled_time := none, meeting_link := some "zoom", status := "accepted", created_at := 0, updated_at := 9 }
    rfl
  ⟨h.1, h.2.2.2.2.2.2.1⟩

/-- No dictionary produced by the per-user serialisation of
`list_users` carries an `email` key: `to_dict_basic`'s email entry is
popped and the two aggregation keys differ from it. -/
theorem userListing_no_email (fb : List Feedback) (u : User) :
    ∀ kv ∈ userListing fb u, kv.1 ≠ "email" := by
  intro kv h
  simp only [userListing, popKey] at h
  split at h <;>
  · rcases List.mem_append.1 h with h1 | h1
    · have := List.mem_filter.1 h1
      simpa using this.2
    · simp only [List.mem_cons, List.not_mem_nil, or_false] at h1
      rcases h1 with h1 | h1 <;> rw [h1] <;> simp

/-- The aggregation keys of a `list_users` result dictionary:
`average_rating` is the binary64 mean of the ratings of the feedback
rows targeting the user, float-rounded to one decimal (`null` when
there are none), and `total_reviews` is their count. -/
theorem userListing_lookup (fb : List Feedback) (u : User) :
    lookupKey "average_rating" (userListing fb u) =
      some (if (fb.filter (fun f => f.target_user_id = u.id)).isEmpty then JsonVal.null
        else .f (pyRound1 (toDouble
          (((fb.filter (fun f => f.target_user_id = u.id)).map (fun f => (f.rating : ℚ))).sum /
            ((fb.filter (fun f => f.target_user_id = u.id)).length : ℚ))))) ∧
    lookupKey "total_reviews" (userListing fb u) =
      some (.i ((fb.filter (fun f => f.target_user_id = u.id)).length : Int)) := by
  by_cases hfb : (fb.filter (fun f => f.target_user_id = u.id)).isEmpty
  · constructor <;>
      simp [userListing, hfb, lookupKey, User.to_dict_basic, popKey, isoformat,
        List.isEmpty_iff.1 hfb]
  · constructor <;>
      simp [userListing, hfb, lookupKey, User.to_dict_basic, popKey, isoformat]

/-- Evaluation rule for `roundHalfEven` below the midpoint. -/
theorem roundHalfEven_of_lt_half {x : ℚ} {n : ℤ} (h1 : (n:ℚ) ≤ x) (h2 : x < n + 1/2) :
    roundHalfEven x = n := by
  have hf : ⌊x⌋ = n := Int.floor_eq_iff.2 ⟨h1, by linarith⟩
  simp only [roundHalfEven, hf]
  rw [if_pos (by linarith)]

/-- Evaluation rule for `roundHalfEven` at a tie with an odd floor. -/
theorem roundHalfEven_of_tie_odd {x : ℚ} {n : ℤ} (h : x = (n:ℚ) + 1/2) (ho : ¬ Even n) :
    roundHalfEven x = n + 1 := by
  have hf : ⌊x⌋ = n := Int.floor_eq_iff.2 ⟨by rw [h]; linarith, by rw [h]; norm_num⟩
  have hx : x - (n:ℚ) = 1/2 := by rw [h]; ring
  simp only [roundHalfEven, hf, hx]
  rw [if_neg (by norm_num), if_neg (by norm_num), if_neg ho]

/-- Evaluation rule for `toDouble`: a positive value in binade `e`
rounds to `m` significand units of `2 ^ (e - 52)`. -/
theorem toDouble_eq_of {q : ℚ} {e m : ℤ} (h1 : (2:ℚ)^e ≤ q) (h2 : q < (2:ℚ)^(e+1))
    (he : -1022 ≤ e) (hm : roundHalfEven (q / (2:ℚ)^(e-52)) = m) :
    toDouble q = (m:ℚ) * (2:ℚ)^(e-52) := by
  have hq : 0 < q := lt_of_lt_of_le (by positivity) h1
  have hle : e ≤ Int.log 2 q :=
    (Int.zpow_le_iff_le_log (by norm_num) hq).1 (by simpa using h1)
  have hlt : Int.log 2 q < e + 1 :=
    (Int.lt_zpow_iff_log_lt (by norm_num) hq).1 (by simpa using h2)
  have hmax : max (Int.log 2 q) (-1022) = e := by
    have hlog : Int.log 2 q = e := by omega
    rw [hlog]
    exact max_eq_left he
  simp only [toDouble, if_neg hq.ne', if_neg (not_lt.2 hq.le), abs_of_pos hq, hmax, hm,
    one_mul]

/-- 4 is exactly representable in binary64. -/
theorem toDouble_four : toDouble 4 = 4 := by
  have h := @toDouble_eq_of 4 2 4503599627370496 (by norm_num) (by norm_num) (by norm_num)
    (@roundHalfEven_of_lt_half ((4:ℚ) / (2:ℚ)^((2:ℤ)-52)) 4503599627370496
      (by norm_num) (by norm_num))
  rw [h]; norm_num

/-- The double nearest to 87/20 = 4.35 is 4897664594765414·2⁻⁵⁰,
slightly BELOW 4.35. -/
theorem toDouble_87_20 : toDouble (87/20) = 4897664594765414 * (2:ℚ)^(-50:ℤ) := by
  have h := @toDouble_eq_of (87/20) 2 4897664594765414 (by norm_num) (by norm_num)
    (by norm_num)
    (@roundHalfEven_of_lt_half ((87/20 : ℚ) / (2:ℚ)^((2:ℤ)-52)) 4897664594765414
      (by norm_num) (by norm_num))
  rw [h]; norm_num

/-- The double nearest to 43/10 = 4.3 is 4841369599423283·2⁻⁵⁰. -/
theorem toDouble_43_10 : toDouble (43/10) = 4841369599423283 * (2:ℚ)^(-50:ℤ) := by
  have h := @toDouble_eq_of (43/10) 2 4841369599423283 (by norm_num) (by norm_num)
    (by norm_num)
    (@roundHalfEven_of_lt_half ((43/10 : ℚ) / (2:ℚ)^((2:ℤ)-52)) 4841369599423283
      (by norm_num) (by norm_num))
  rw [h]; norm_num

/-- `round(4.0, 1)` is 4.0. -/
theorem pyRound1_four : pyRound1 4 = 4 := by
  have h40 : roundHalfEven ((4:ℚ) * 10) = 40 :=
    @roundHalfEven_of_lt_half ((4:ℚ)*10) 40 (by norm_num) (by norm_num)
  simp only [pyRound1, h40]
  rw [show ((40:ℤ):ℚ)/10 = (4:ℚ) by norm_num]
  exact toDouble_four

/-- `round(·, 1)` of the double nearest to 4.35: its exact value is
4.3499999999999996…, below the 4.35 midpoint, so the decimal rounding
gives 4.3 and the stored float is the double nearest to 4.3 — exactly
what CPython's `round(87/20, 1) == 4.3` returns. -/
theorem pyRound1_87_20 :
    pyRound1 (4897664594765414 * (2:ℚ)^(-50:ℤ)) = 4841369599423283 * (2:ℚ)^(-50:ℤ) := by
  have h43 : roundHalfEven ((4897664594765414 * (2:ℚ)^(-50:ℤ)) * 10) = 43 :=
    @roundHalfEven_of_lt_half ((4897664594765414 * (2:ℚ)^(-50:ℤ)) * 10) 43
      (by norm_num) (by norm_num)
  simp only [pyRound1, h43]
  rw [show ((43:ℤ):ℚ)/10 = (43/10:ℚ) by norm_num]
  exact toDouble_43_10

/-- The spec's exact reading rounds the mean 87/20 = 4.35 up to 4.4
(tie to even on the exact rational). -/
theorem specRound1_87_20 : specRound1 (87/20) = 22/5 := by
  have h : roundHalfEven ((87/20 : ℚ) * 10) = 44 := by
    have := @roundHalfEven_of_tie_odd ((87/20:ℚ)*10) 43 (by norm_num) (by decide)
    simpa using this
  simp only [specRound1, h]
  norm_num

/-- With no `role` parameter, `show_all` not "true" and no search
text, `list_users` is the mentor/both role filter, the caller
exclusion, the sort by `created_at` descending, and the per-user
serialisation. -/
theorem list_users_default_eq (dbUsers : List User) (dbFeedback : List Feedback)
    (current : User) :
    list_users dbUsers dbFeedback current "" "" "" =
      (List.insertionSort createdDesc
        ((dbUsers.filter (fun u => u.role = "mentor" ∨ u.role = "both")).filter
          (fun u => u.id ≠ current.id))).map (userListing dbFeedback) := by
  have h1 : ¬ (pyLower (pyStrip "") = "mentor" ∨ pyLower (pyStrip "") = "mentee" ∨
      pyLower (pyStrip "") = "both") := by decide
  have h2 : ¬ (pyLower "" = "true") := by decide
  have h3 : ¬ (pyStrip "" ≠ "") := by decide
  simp only [list_users, if_neg h1, if_pos h2, if_neg h3]

/-- C5: the default listing (no `role`, `show_all` not true, no
search) returns exactly the users whose role is `mentor` or `both`
other than the caller — so `mentee`-role users are never included —
ordered newest-created first, and no returned dictionary contains an
`email` key. -/
theorem list_users_default_filter (dbUsers : List User) (dbFeedback : List Feedback)
    (current : User) :
    ∃ l : List User, l.Perm (dbUsers.filter (fun u =>
        (u.role = "mentor" ∨ u.role = "both") ∧ u.id ≠ current.id)) ∧
      l.Sorted createdDesc ∧
      list_users dbUsers dbFeedback current "" "" "" = l.map (userListing dbFeedback) ∧
      ∀ d ∈ list_users dbUsers dbFeedback current "" "" "", ∀ kv ∈ d, kv.1 ≠ "email" := by
  refine ⟨List.insertionSort createdDesc
    ((dbUsers.filter (fun u => u.role = "mentor" ∨ u.role = "both")).filter
      (fun u => u.id ≠ current.id)), ?_, ?_, ?_, ?_⟩
  · have heq : ((dbUsers.filter (fun u => u.role = "mentor" ∨ u.role = "both")).filter
        (fun u => u.id ≠ current.id)) =
        dbUsers.filter (fun u => (u.role = "mentor" ∨ u.role = "both") ∧ u.id ≠ current.id) := by
      rw [List.filter_filter]
      apply List.filter_congr
      intro u _
      rw [Bool.decide_and]
      exact Bool.and_comm _ _
    rw [heq]
    exact List.perm_insertionSort createdDesc _
  · exact List.sorted_insertionSort createdDesc _
  · exact list_users_default_eq dbUsers dbFeedback current
  · intro d hd kv hkv
    rw [list_users_default_eq] at hd
    rcases List.mem_map.1 hd with ⟨u, _, rfl⟩
    exact userListing_no_email dbFeedback u kv hkv

/-- C5 witness: a mentor, a mentee, a both-role user and a caller. -/
theorem list_users_default_filter_witness :
    ∃ l : List User, l.Perm (([
        { id := 1, name := "M", email := "m@x.com", password_hash := "h", bio := none, interests := none, skills := none, experience := none, role := "mentor", created_at := 1 },
        { id := 2, name := "E", email := "e@x.com", password_hash := "h", bio := none, interests := none, skills := none, experience := none, role := "mentee", created_at := 2 },
        { id := 3, name := "B", email := "b@x.com", password_hash := "h", bio := none, interests := none, skills := none, experience := none, role := "both", created_at := 3 },
        { id := 4, name := "C", email := "c@x.com", password_hash := "h", bio := none, interests := none, skills := none, experience := none, role := "mentor", created_at := 4 } ] : List User).filter (fun u =>
        (u.role = "mentor" ∨ u.role = "both") ∧ u.id ≠ 4)) ∧
      l.Sorted createdDesc ∧
      list_users [
        { id := 1, name := "M", email := "m@x.com", password_hash := "h", bio := none, interests := none, skills := none, experience := none, role := "mentor", created_at := 1 },
        { id := 2, name := "E", email := "e@x.com", password_hash := "h", bio := none, interests := none, skills := none, experience := none, role := "mentee", created_at := 2 },
        { id := 3, name := "B", email := "b@x.com", password_hash := "h", bio := none, interests := none, skills := none, experience := none, role := "both", created_at := 3 },
        { id := 4, name := "C", email := "c@x.com", password_hash := "h", bio := none, interests := none, skills := none, experience := none, role := "mentor", created_at := 4 } ]
        [] { id := 4, name := "C", email := "c@x.com", password_hash := "h", bio := none, interests := none, skills := none, experience := none, role := "mentor", created_at := 4 }
        "" "" "" = l.map (userListing []) ∧
      ∀ d ∈ list_users [
        { id := 1, name := "M", email := "m@x.com", password_hash := "h", bio := none, interests := none, skills := none, experience := none, role := "mentor", created_at := 1 },
        { id := 2, name := "E", email := "e@x.com", password_hash := "h", bio := none, interests := none, skills := none, experience := none, role := "mentee", created_at := 2 },
        { id := 3, name := "B", email := "b@x.com", password_hash := "h", bio := none, interests := none, skills := none, experience := none, role := "both", created_at := 3 },
        { id := 4, name := "C", email := "c@x.com", password_hash := "h", bio := none, interests := none, skills := none, experience := none, role := "mentor", created_at := 4 } ]
        [] { id := 4, name := "C", email := "c@x.com", password_hash := "h", bio := none, interests := none, skills := none, experience := none, role := "mentor", created_at := 4 }
        "" "" "", ∀ kv ∈ d, kv.1 ≠ "email" :=
  list_users_default_filter
    [ { id := 1, name := "M", email := "m@x.com", password_hash := "h", bio := none, interests := none, skills := none, experience := none, role := "mentor", created_at := 1 },
      { id := 2, name := "E", email := "e@x.com", password_hash := "h", bio := none, interests := none, skills := none, experience := none, role := "mentee", created_at := 2 },
      { id := 3, name := "B", email := "b@x.com", password_hash := "h", bio := none, interests := none, skills := none, experience := none, role := "both", created_at := 3 },
      { id := 4, name := "C", email := "c@x.com", password_hash := "h", bio := none, interests := none, skills := none, experience := none, role := "mentor", created_at := 4 } ]
    []
    { id := 4, name := "C", email := "c@x.com", password_hash := "h", bio := none, interests := none, skills := none, experience := none, role := "mentor", created_at := 4 }

/-- The target user of the C6 concrete instance. -/
def c6User : User :=
  { id := 1, name := "T", email := "t@x.com", password_hash := "h", bio := none, interests := none, skills := none, experience := none, role := "mentor", created_at := 10 }

/-- Three feedback rows with ratings 5, 4, 3 targeting user 1. -/
def c6Fb : List Feedback :=
  [ { id := 1, session_id := 11, author_id := 2, target_user_id := 1, rating := 5, comment := none, created_at := 0 },
    { id := 2, session_id := 12, author_id := 3, target_user_id := 1, rating := 4, comment := none, created_at := 0 },
    { id := 3, session_id := 13, author_id := 4, target_user_id := 1, rating := 3, comment := none, created_at := 0 } ]

/-- Twenty feedback rows targeting user 1, thirteen ratings of 4 and
seven of 5, summing to 87: the exact mean is 87/20 = 4.35. -/
def c6Fb20 : List Feedback :=
  [ { id := 1, session_id := 100, author_id := 2, target_user_id := 1, rating := 4, comment := none, created_at := 0 },
    { id := 2, session_id := 101, author_id := 2, target_user_id := 1, rating := 4, comment := none, created_at := 0 },
    { id := 3, session_id := 102, author_id := 2, target_user_id := 1, rating := 4, comment := none, created_at := 0 },
    { id := 4, session_id := 103, author_id := 2, target_user_id := 1, rating := 4, comment := none, created_at := 0 },
    { id := 5, session_id := 104, author_id := 2, target_user_id := 1, rating := 4, comment := none, created_at := 0 },
    { id := 6, session_id := 105, author_id := 2, target_user_id := 1, rating := 4, comment := none, created_at := 0 },
    { id := 7, session_id := 106, author_id := 2, target_user_id := 1, rating := 4, comment := none, created_at := 0 },
    { id := 8, session_id := 107, author_id := 2, target_user_id := 1, rating := 4, comment := none, created_at := 0 },
    { id := 9, session_id := 108, author_id := 2, target_user_id := 1, rating := 4, comment := none, created_at := 0 },
    { id := 10, session_id := 109, author_id := 2, target_user_id := 1, rating := 4, comment := none, created_at := 0 },
    { id := 11, session_id := 110, author_id := 2, target_user_id := 1, rating := 4, comment := none, created_at := 0 },
    { id := 12, session_id := 111, author_id := 2, target_user_id := 1, rating := 4, comment := none, created_at := 0 },
    { id := 13, session_id := 112, author_id := 2, target_user_id := 1, rating := 4, comment := none, created_at := 0 },
    { id := 14, session_id := 113, author_id := 2, target_user_id := 1, rating := 5, comment := none, created_at := 0 },
    { id := 15, session_id := 114, author_id := 2, target_user_id := 1, rating := 5, comment := none, created_at := 0 },
    { id := 16, session_id := 115, author_id := 2, target_user_id := 1, rating := 5, comment := none, created_at := 0 },
    { id := 17, session_id := 116, author_id := 2, target_user_id := 1, rating := 5, comment := none, created_at := 0 },
    { id := 18, session_id := 117, author_id := 2, target_user_id := 1, rating := 5, comment := none, created_at := 0 },
    { id := 19, session_id := 118, author_id := 2, target_user_id := 1, rating := 5, comment := none, created_at := 0 },
    { id := 20, session_id := 119, author_id := 2, target_user_id := 1, rating := 5, comment := none, created_at := 0 } ]

/-- C6 counterexample: the claim "average_rating equals the arithmetic
mean of the ratings rounded to 1 decimal place" fails for twenty
ratings summing to 87.  The exact mean is 87/20 = 4.35, whose 1-decimal
rounding is 4.4 (= 22/5, ties to even; 4.4 under half-up as well), but
the program computes `round(sum/len, 1)` on an IEEE double: the double
nearest to 4.35 is 4.3499999999999996…, below the midpoint, so CPython
returns the float 4.3 (exactly 4841369599423283·2⁻⁵⁰), which differs
from 22/5. -/
theorem average_rating_ieee_counterexample :
    ((c6Fb20.map (fun f => (f.rating : ℚ))).sum / (c6Fb20.length : ℚ)) = 87/20 ∧
    lookupKey "average_rating" (userListing c6Fb20 c6User) =
      some (.f (4841369599423283 * (2:ℚ)^(-50:ℤ))) ∧
    specRound1 (87/20) = 22/5 ∧
    (4841369599423283 : ℚ) * (2:ℚ)^(-50:ℤ) ≠ 22/5 := by
  have hfil : c6Fb20.filter (fun f => f.target_user_id = c6User.id) = c6Fb20 := rfl
  have hsum : ((c6Fb20.map (fun f => (f.rating : ℚ))).sum / (c6Fb20.length : ℚ)) = 87/20 := by
    simp only [c6Fb20, List.map_cons, List.map_nil, List.sum_cons, List.sum_nil,
      List.length_cons, List.length_nil]
    norm_num
  refine ⟨hsum, ?_, specRound1_87_20, by norm_num⟩
  have h1 := (userListing_lookup c6Fb20 c6User).1
  rw [hfil] at h1
  rw [h1, if_neg (by decide : ¬ c6Fb20.isEmpty = true), hsum, toDouble_87_20, pyRound1_87_20]

/-- C6 (amended): every user dictionary returned by the default
GET /api/users carries `average_rating` equal to the mean of the
ratings of the feedback rows targeting that user computed in binary64
arithmetic — the exact mean rounded to the nearest double, then
CPython's `round(·, 1)` — or `null` with no feedback, and
`total_reviews` equal to the count of those rows; this coincides with
the exact mean rounded to 1 decimal place whenever no double-rounding
boundary intervenes, in particular ratings [5, 4, 3] give average 4.0
with 3 reviews, and no feedback gives `null` with 0. -/
theorem list_users_rating_aggregation (dbUsers : List User) (dbFeedback : List Feedback)
    (current : User) :
    (∀ d ∈ list_users dbUsers dbFeedback current "" "" "",
      ∃ u, u ∈ dbUsers ∧ d = userListing dbFeedback u ∧
        lookupKey "average_rating" d =
          some (if (dbFeedback.filter (fun f => f.target_user_id = u.id)).isEmpty then
              JsonVal.null
            else .f (pyRound1 (toDouble
              (((dbFeedback.filter (fun f => f.target_user_id = u.id)).map
                  (fun f => (f.rating : ℚ))).sum /
                ((dbFeedback.filter (fun f => f.target_user_id = u.id)).length : ℚ))))) ∧
        lookupKey "total_reviews" d =
          some (.i ((dbFeedback.filter (fun f => f.target_user_id = u.id)).length : Int))) ∧
    lookupKey "average_rating" (userListing c6Fb c6User) = some (.f 4) ∧
    lookupKey "total_reviews" (userListing c6Fb c6User) = some (.i 3) ∧
    lookupKey "average_rating" (userListing [] c6User) = some JsonVal.null ∧
    lookupKey "total_reviews" (userListing [] c6User) = some (.i 0) := by
  have hfil3 : c6Fb.filter (fun f => f.target_user_id = c6User.id) = c6Fb := rfl
  have hsum3 : ((c6Fb.map (fun f => (f.rating : ℚ))).sum / (c6Fb.length : ℚ)) = 4 := by
    simp only [c6Fb, List.map_cons, List.map_nil, List.sum_cons, List.sum_nil,
      List.length_cons, List.length_nil]
    norm_num
  have havg3 : lookupKey "average_rating" (userListing c6Fb c6User) = some (.f 4) := by
    have h1 := (userListing_lookup c6Fb c6User).1
    rw [hfil3] at h1
    rw [h1, if_neg (by decide : ¬ c6Fb.isEmpty = true), hsum3, toDouble_four, pyRound1_four]
  refine ⟨?_, havg3,
    by simp [userListing, lookupKey, c6Fb, c6User, User.to_dict_basic, popKey, isoformat],
    by simp [userListing, lookupKey, c6User, User.to_dict_basic, popKey, isoformat],
    by simp [userListing, lookupKey, c6User, User.to_dict_basic, popKey, isoformat]⟩
  intro d hd
  rw [list_users_default_eq] at hd
  rcases List.mem_map.1 hd with ⟨u, hu, rfl⟩
  have hu2 : u ∈ dbUsers := by
    have := (List.perm_insertionSort createdDesc _).subset hu
    exact List.mem_of_mem_filter (List.mem_of_mem_filter this)
  exact ⟨u, hu2, rfl, (userListing_lookup dbFeedback u).1, (userListing_lookup dbFeedback u).2⟩

/-- C6 witness: the aggregation statement applied to the concrete
store, and the [5,4,3] instance read off directly. -/
theorem list_users_rating_aggregation_witness :
    lookupKey "average_rating" (userListing c6Fb c6User) = some (.f 4) ∧
    lookupKey "total_reviews" (userListing c6Fb c6User) = some (.i 3) :=
  ⟨(list_users_rating_aggregation [c6User] c6Fb c6User).2.1,
   (list_users_rating_aggregation [c6User] c6Fb c6User).2.2.1⟩

end Mentorship
